import Mathlib

/-!
Verification development for the Asakusa-line timetable converter.

The repository contains three near-duplicate Python scripts that convert
Tokyo-metro timetable HTML pages into the line-oriented NextTrain text
format.  We shallowly embed the three variants:

* variant `K` — `timetable_converter.py` (Keisei-style, 押上 direction,
  BeautifulSoup backend, airport special case, placeholder filter,
  midnight hour remapping);
* variant `N` — `timetable_converter_nishimagome_html（本線支線共通、始発未対応.py`
  (Nishimagome main line, regex backend, track-glyph platform handling,
  placeholder filter, midnight hour remapping);
* variant `S` — `timetable_converterの西馬込支線押上方面（始発未対応.py`
  (西馬込支線押上方面, BeautifulSoup backend, no placeholder filter,
  purely numeric hour sort).

Python strings are modelled as Lean `String`; since several core `String`
operations do not reduce in the kernel, the Python string primitives used
by the scripts (`strip`, `in` (substring), `split`, `isdigit`, `int`) are
re-implemented over `String.data` so that every definition evaluates.
-/

/-- `pat` is a prefix of `s` (both as character lists). -/
def charsStartWith : List Char → List Char → Bool
  | _, [] => true
  | [], _ :: _ => false
  | c :: cs, p :: ps => c == p && charsStartWith cs ps

/-- Substring test on character lists, mirroring Python's `pat in s`. -/
def charsContain : List Char → List Char → Bool
  | [], pat => pat.isEmpty
  | c :: cs, pat => charsStartWith (c :: cs) pat || charsContain cs pat

/-- Python `pat in s` for strings (substring containment). -/
def containsStr (s pat : String) : Bool := charsContain s.data pat.data

/-- Python `str.strip()`: drop leading and trailing whitespace. -/
def trimPy (s : String) : String :=
  ⟨((s.data.dropWhile Char.isWhitespace).reverse.dropWhile Char.isWhitespace).reverse⟩

/-- Python `str.isdigit()` for the ASCII digits that occur in the pages. -/
def isdigitPy (s : String) : Bool := !s.data.isEmpty && s.data.all Char.isDigit

/-- Python `int(s)` on a digit string. -/
def toNatPy (s : String) : Nat := s.data.foldl (fun n c => n * 10 + (c.toNat - 48)) 0

/-- Characters of `s` strictly before the first occurrence of `sep`:
Python `s.split(sep)[0]` for a non-empty separator. -/
def splitFirst (sep : List Char) : List Char → List Char
  | [] => []
  | c :: cs => if charsStartWith (c :: cs) sep then [] else c :: splitFirst sep cs

/-- Lexicographic comparison of character lists (Python `str.__le__`). -/
def charsLe : List Char → List Char → Bool
  | [], _ => true
  | _ :: _, [] => false
  | a :: as, b :: bs => if a < b then true else if b < a then false else charsLe as bs

/-- Python string `≤`, used by `sorted` on dictionary keys. -/
def strLe (a b : String) : Bool := charsLe a.data b.data

/-- Insert `x` after every element `y` with `le y x`; building block of a
stable insertion sort matching Python `sorted`. -/
def insertAfterLe (le : α → α → Bool) (x : α) : List α → List α
  | [] => [x]
  | y :: ys => if le y x then y :: insertAfterLe le x ys else x :: y :: ys

/-- Stable ascending sort, modelling Python `sorted` with a total `le`. -/
def pySorted (le : α → α → Bool) (l : List α) : List α :=
  l.foldl (fun acc x => insertAfterLe le x acc) []

/-- One scheduled departure extracted from a trip block
(`{'minute', 'train_type', 'destination', 'legends'}` in the scripts). -/
structure Trip where
  minute : String
  trainType : String
  destination : String
  legends : List String
deriving DecidableEq

/-- One `div.wrapTime` trip block as seen by the BeautifulSoup variants:
its class-token list, the optional `div.wrapLegend` (span texts), and the
optional `span.time` text. -/
structure WrapTime where
  classes : List String
  legendElem : Option (List String)
  timeElem : Option String
deriving DecidableEq

/-- One `tr` of the timetable body for the BeautifulSoup variants: the
optional `th` hour text and the optional `td` with its trip blocks. -/
structure Row where
  th : Option String
  td : Option (List WrapTime)
deriving DecidableEq

/-- Station header data (`extract_station_info` result). -/
structure StationInfo where
  name : String
  direction : String
  dayType : String
deriving DecidableEq

/-- One parsed document as consumed by `convert_to_nexttrain`:
station info plus the hour → trips association (insertion-ordered,
modelling the Python dict). -/
structure ParsedTimetable where
  station : StationInfo
  timetable : List (String × List Trip)
deriving DecidableEq

/-! ## Variant K tables (`timetable_converter.py`, lines 14-81) -/

def train_type_definitions_K : List (String × String × String × String) :=
  [("k", "アクセス特急", "ア", "#EE7A00"),
   ("l", "エアポート快特", "エ", "#EE7A00"),
   ("m", "エアポート快特−成田スカイアクセス線経由", "快", "#EE7A00"),
   ("n", "通勤特急", "通", "#0033FF"),
   ("o", "普通", "普", "#000000"),
   ("p", "快速", "快", "#FC82FC"),
   ("q", "特急", "特", "#FF0033"),
   ("r", "快特", "快", "#009966")]

def destination_definitions_K : List (String × String × String) :=
  [("a", "印旛日本医大", "印"), ("b", "芝山千代田", "芝"), ("c", "印西牧の原", "牧"),
   ("d", "押上", "押"), ("e", "京成高砂", "高"), ("f", "京成佐倉", "佐"),
   ("g", "京成成田", "成"), ("h", "宗吾参道", "宗"), ("i", "成田空港", "空"),
   ("j", "青砥", "青")]

def destination_map_K : List (String × String) :=
  [("印旛日本医大", "a"), ("医", "a"), ("芝山千代田", "b"), ("芝", "b"),
   ("印西牧の原", "c"), ("印", "c"), ("押上", "d"), ("押", "d"),
   ("京成高砂", "e"), ("高", "e"), ("京成佐倉", "f"), ("佐", "f"),
   ("京成成田", "g"), ("成", "g"), ("宗吾参道", "h"), ("宗", "h"),
   ("成田空港", "i"), ("空", "i"), ("青砥", "j"), ("青", "j"),
   ("泉岳寺", "j"), ("●", "j")]

/-- Variant K train-type glyph exclusion list (line 177). -/
def typeSyms_K : List String := ["ア", "速", "通", "特", "快", "エ"]

/-! ## Variant K trip classification (`extract_timetable`, lines 155-221) -/

/-- Legend texts of a trip block: each span's stripped text, empty texts
dropped (lines 164-169, identical in variant S lines 166-171). -/
def extractLegendTexts (legendElem : Option (List String)) : List String :=
  match legendElem with
  | none => []
  | some spans => (spans.map trimPy).filter (fun t => !t.data.isEmpty)

/-- Generic first-match destination scan with early exit, shared shape of
the variant K and variant S loops (`for legend in legends: ... break`). -/
def destScanG (syms : List String) (dmap : List (String × String)) (dflt : String) :
    List String → String
  | [] => dflt
  | l :: ls =>
    if syms.contains l then destScanG syms dmap dflt ls
    else
      match dmap.lookup l with
      | some d => d
      | none => destScanG syms dmap dflt ls

/-- Variant K destination resolution (lines 162, 177-185); default is 青砥. -/
def destScan_K (legends : List String) : String :=
  destScanG typeSyms_K destination_map_K "j" legends

/-- Variant K train-type resolution (lines 172, 187-207). -/
def trainType_K (classes : List String) (legends : List String) (dest : String) : String :=
  if legends.contains "エ" then
    if classes.contains "color-orange" && dest == "i" then "m" else "l"
  else
    if classes.contains "color-pink" then "p"
    else if classes.contains "color-red" then "q"
    else if classes.contains "color-orange" then "k"
    else if classes.contains "color-green" then "r"
    else if classes.contains "color-blue" then "n"
    else "o"

/-- Variant K processing of one trip block (lines 158-221): `none` when the
block contributes no trip (missing time element or placeholder minute). -/
def processWrapTime_K (wt : WrapTime) : Option Trip :=
  let legends := extractLegendTexts wt.legendElem
  let dest := destScan_K legends
  let tt := trainType_K wt.classes legends dest
  match wt.timeElem with
  | none => none
  | some t =>
    let m := trimPy t
    if m == "－" then none
    else some ⟨m, tt, dest, legends⟩

/-- Trips contributed by one row's data cell in variant K. -/
def rowTrips_K (wts : List WrapTime) : List Trip := wts.filterMap processWrapTime_K

/-! ## Hour registration (shared shape of all three variants) -/

/-- Python `timetable[hour] = times` on the insertion-ordered dict model. -/
def insertHour (tt : List (String × List Trip)) (h : String) (ts : List Trip) :
    List (String × List Trip) :=
  if tt.any (fun p => p.1 == h) then tt.map (fun p => if p.1 == h then (h, ts) else p)
  else tt ++ [(h, ts)]

/-- One row's contribution to the timetable dict: a row with a missing
cell yields `none` and is skipped, and an hour is registered only when its
trip list is non-empty (`if times: timetable[hour] = times`). -/
def regHour (tt : List (String × List Trip)) (e : Option (String × List Trip)) :
    List (String × List Trip) :=
  match e with
  | none => tt
  | some (h, ts) => if ts.isEmpty then tt else insertHour tt h ts

/-- Fold the per-row results into the timetable dict. -/
def buildTT (entries : List (Option (String × List Trip))) : List (String × List Trip) :=
  entries.foldl regHour []

/-- Variant K row handling (lines 144-153): both cells must be present. -/
def rowEntry_K (r : Row) : Option (String × List Trip) :=
  match r.th, r.td with
  | some h, some wts => some (trimPy h, rowTrips_K wts)
  | _, _ => none

/-- Variant K `extract_timetable` on the row list of the table body. -/
def extract_timetable_K (rows : List Row) : List (String × List Trip) :=
  buildTT (rows.map rowEntry_K)

example : processWrapTime_K ⟨["wrapTime", "color-orange"], some ["エ", "空"], some "10"⟩ =
    some ⟨"10", "m", "i", ["エ", "空"]⟩ := by decide

example : processWrapTime_K ⟨["wrapTime", "color-green"], some ["エ", "空"], some "10"⟩ =
    some ⟨"10", "l", "i", ["エ", "空"]⟩ := by decide

example : processWrapTime_K ⟨["wrapTime", "color-orange"], some ["ア"], some "15"⟩ =
    some ⟨"15", "k", "j", ["ア"]⟩ := by decide

example : processWrapTime_K ⟨["wrapTime"], some ["快"], some "－"⟩ = none := by decide

example : extract_timetable_K [⟨some "5", some [⟨[], none, some "10"⟩]⟩] =
    [("5", [⟨"10", "o", "j", []⟩])] := by decide

/-! ## Variant N tables
(`timetable_converter_nishimagome_html（本線支線共通、始発未対応.py`, lines 16-81) -/

def train_type_definitions_N : List (String × String × String × String) :=
  [("m", "快特", "快", "#009966"),
   ("n", "急行", "急", "#0033FF"),
   ("o", "普通", "普", "#000000"),
   ("p", "特急", "特", "#FF0033"),
   ("q", "エアポート快特", "エ", "#EE7A00")]

def destination_definitions_N : List (String × String × String) :=
  [("a", "羽田空港", "羽"), ("b", "京急久里浜", "ク"), ("c", "三浦海岸", "海"),
   ("d", "三崎口", "三"), ("e", "神奈川新町", "神"), ("f", "西馬込'", "馬'"),
   ("g", "西馬込''", "馬''"), ("h", "泉岳寺", "泉"),
   ("i", "浅草橋", "草"), ("j", "品川", "品"), ("k", "金沢文庫", "文"),
   ("l", "逗子・葉山", "逗")]

def destination_map_N : List (String × String) :=
  [("羽田空港", "a"), ("羽", "a"), ("京急久里浜", "b"), ("久", "b"), ("ク", "b"),
   ("三浦海岸", "c"), ("海", "c"), ("三崎口", "d"), ("三", "d"),
   ("神奈川新町", "e"), ("神", "e"), ("新", "e"),
   ("泉岳寺", "h"), ("泉", "h"), ("浅草橋", "i"), ("草", "i"), ("浅", "i"),
   ("品川", "j"), ("品", "j"), ("金沢文庫", "k"), ("文", "k"),
   ("逗子・葉山", "l"), ("逗", "l"), ("①", "f"), ("②", "g")]

/-- Variant N train-type glyph exclusion list (line 161). -/
def typeSyms_N : List String := ["快", "急", "特", "エ"]

/-- One trip block of the regex variant: the whole class attribute string
of the `wrapTime` div, the extracted legend span texts, and the optional
`span.time` text. -/
structure TrainBlock_N where
  classAttr : String
  legends : List String
  time : Option String
deriving DecidableEq

/-- Variant N destination/platform loop body (lines 163-174): type glyphs
are skipped, `①`/`②` update the platform slot, any other key of the
destination map overwrites the destination slot (no early exit). -/
def destStep_N (dp : Option String × Option String) (l : String) :
    Option String × Option String :=
  if typeSyms_N.contains l then dp
  else if l == "①" then (dp.1, some "f")
  else if l == "②" then (dp.1, some "g")
  else
    match destination_map_N.lookup l with
    | some d => (some d, dp.2)
    | none => dp

/-- Variant N destination/platform scan over the whole legend list. -/
def destFold_N (legends : List String) : Option String × Option String :=
  legends.foldl destStep_N (none, none)

/-- Variant N final destination (lines 195-200): the destination slot,
else the platform slot, else 西馬込1番線 (`'f'`). -/
def destOf_N (legends : List String) : String :=
  ((destFold_N legends).1.getD ((destFold_N legends).2.getD "f"))

/-- Variant N train-type resolution (lines 176-193): the `エ` glyph wins
over every color, then color substrings of the class attribute. -/
def trainType_N (classAttr : String) (legends : List String) : String :=
  if legends.contains "エ" then "q"
  else if containsStr classAttr "color-green" then "m"
  else if containsStr classAttr "color-blue" then "n"
  else if containsStr classAttr "color-red" then "p"
  else if containsStr classAttr "color-orange" then "q"
  else "o"

/-- Variant N processing of one trip block (lines 150-214). -/
def processBlock_N (b : TrainBlock_N) : Option Trip :=
  let dest := destOf_N b.legends
  let tt := trainType_N b.classAttr b.legends
  match b.time with
  | none => none
  | some m => if m == "－" then none else some ⟨m, tt, dest, b.legends⟩

/-- Trips contributed by one row in variant N. -/
def rowTrips_N (bs : List TrainBlock_N) : List Trip := bs.filterMap processBlock_N

/-- Variant N rows come out of the row regex with both groups present. -/
def extract_timetable_N (rows : List (String × List TrainBlock_N)) :
    List (String × List Trip) :=
  buildTT (rows.map (fun r => some (r.1, rowTrips_N r.2)))

/-! ## Variant S tables
(`timetable_converterの西馬込支線押上方面（始発未対応.py`, lines 14-72) -/

def train_type_definitions_S : List (String × String × String × String) :=
  [("k", "アクセス特急", "ア", "#EE7A00"),
   ("l", "普通", "普", "#000000"),
   ("m", "快速", "快", "#FC82FC"),
   ("n", "特急", "特", "#FF0033"),
   ("o", "快特", "快", "#009966")]

def destination_definitions_S : List (String × String × String) :=
  [("a", "印旛日本医大", "印"), ("b", "芝山千代田", "芝"), ("c", "印西牧の原", "牧"),
   ("d", "押上", "押"), ("e", "京成高砂", "高"), ("f", "京成佐倉", "佐"),
   ("g", "京成成田", "成"), ("h", "成田空港", "空"), ("i", "青砥", "青"),
   ("j", "泉岳寺", "泉")]

def destination_map_S : List (String × String) :=
  [("印旛日本医大", "a"), ("医", "a"), ("芝山千代田", "b"), ("芝", "b"),
   ("印西牧の原", "c"), ("印", "c"), ("押上", "d"), ("押", "d"),
   ("京成高砂", "e"), ("高", "e"), ("京成佐倉", "f"), ("佐", "f"),
   ("京成成田", "g"), ("成", "g"), ("成田空港", "h"), ("空", "h"),
   ("青砥", "i"), ("青", "i"), ("泉岳寺", "j"), ("●", "j")]

/-- Variant S train-type glyph exclusion list (line 175). -/
def typeSyms_S : List String := ["ア", "速", "特", "快"]

/-- Variant S destination resolution (lines 164, 173-183); default is 泉岳寺.
The scan runs inside `if legend_elem:`, which is equivalent to scanning the
(then empty) extracted legend list. -/
def destScan_S (legends : List String) : String :=
  destScanG typeSyms_S destination_map_S "j" legends

/-- Variant S train-type resolution (lines 150-159): colors only. -/
def trainType_S (classes : List String) : String :=
  if classes.contains "color-pink" then "m"
  else if classes.contains "color-red" then "n"
  else if classes.contains "color-orange" then "k"
  else if classes.contains "color-green" then "o"
  else "l"

/-- Variant S processing of one trip block (lines 149-194): no placeholder
filter — a present time element always yields a trip. -/
def processWrapTime_S (wt : WrapTime) : Option Trip :=
  let tt := trainType_S wt.classes
  let legends := extractLegendTexts wt.legendElem
  let dest := destScan_S legends
  match wt.timeElem with
  | none => none
  | some t => some ⟨trimPy t, tt, dest, legends⟩

/-- Trips contributed by one row's data cell in variant S. -/
def rowTrips_S (wts : List WrapTime) : List Trip := wts.filterMap processWrapTime_S

/-- Variant S row handling (lines 135-144). -/
def rowEntry_S (r : Row) : Option (String × List Trip) :=
  match r.th, r.td with
  | some h, some wts => some (trimPy h, rowTrips_S wts)
  | _, _ => none

/-- Variant S `extract_timetable`. -/
def extract_timetable_S (rows : List Row) : List (String × List Trip) :=
  buildTT (rows.map rowEntry_S)

example : processBlock_N ⟨"wrapTime", ["羽", "品"], some "10"⟩ =
    some ⟨"10", "o", "j", ["羽", "品"]⟩ := by decide

example : processBlock_N ⟨"wrapTime", ["①", "品"], some "10"⟩ =
    some ⟨"10", "o", "j", ["①", "品"]⟩ := by decide

example : processBlock_N ⟨"wrapTime color-green", ["①"], some "10"⟩ =
    some ⟨"10", "m", "f", ["①"]⟩ := by decide

example : processBlock_N ⟨"wrapTime", ["②"], some "10"⟩ =
    some ⟨"10", "o", "g", ["②"]⟩ := by decide

example : processBlock_N ⟨"wrapTime color-red", [], some "－"⟩ = none := by decide

example : processWrapTime_S ⟨["wrapTime", "color-red"], some ["特", "押"], some "－"⟩ =
    some ⟨"－", "n", "d", ["特", "押"]⟩ := by decide

/-! ## Station info extraction (variants K and S, lines 102-129 / 93-120)

BeautifulSoup's `find` is modelled by `Option`: `stationName` is the
`h1.station-name` text, `directionItem`/`dayItem` are the active
direction/day `li` elements, each holding the result of `find('a')`
(its text, or `none` when the list item has no anchor).  Python's
attribute access `None.text` raises `AttributeError`; the embedding
returns it through `Except`. -/

structure SoupHead where
  stationName : Option String
  directionItem : Option (Option String)
  dayItem : Option (Option String)
deriving DecidableEq

def attrErr : String := "AttributeError: 'NoneType' object has no attribute 'text'"

/-- `extract_station_info` of variants K and S (identical code). -/
def extract_station_info_K (s : SoupHead) : Except String StationInfo := do
  let name :=
    match s.stationName with
    | some t => trimPy t
    | none => ""
  let direction ←
    match s.directionItem with
    | none => pure ""
    | some none => throw attrErr
    | some (some t) => pure (trimPy t)
  let dayType ←
    match s.dayItem with
    | none => pure ""
    | some none => throw attrErr
    | some (some t) =>
      let d := trimPy t
      pure (if containsStr d "平日" then "weekday"
            else if containsStr d "土曜" || containsStr d "休日" then "holiday"
            else "")
  pure ⟨name, direction, dayType⟩

/-! ## Serialization (`convert_to_nexttrain`) -/

/-- Hour sort key of variants K and N (lines 301-308 / 297-304):
non-digit labels sort as 0, hours 0 and 1 are pushed to 24 and 25. -/
def sortHour_K (h : String) : Nat :=
  if isdigitPy h then (if toNatPy h ≤ 1 then toNatPy h + 24 else toNatPy h) else 0

/-- Hour sort key of variant S (line 273): plain numeric value. -/
def sortHour_S (h : String) : Nat :=
  if isdigitPy h then toNatPy h else 0

/-- Python `'・' in direction` and the split to the first segment plus
`方面` (variant K lines 291-294, identical in N and S). -/
def directionReduce (direction : String) : String :=
  if containsStr direction "・" then ⟨splitFirst ['・'] direction.data⟩ ++ "方面"
  else direction

/-- The per-hour output lines (variant K lines 310-326; the same loop in
variants N and S, with the variant's sort key). -/
def hourLines (key : String → Nat) (tt : List (String × List Trip)) : List String :=
  (pySorted (fun a b => Nat.ble (key a) (key b)) (tt.map Prod.fst)).filterMap
    (fun h =>
      (tt.lookup h).bind fun times =>
        if times.isEmpty then none
        else
          some (h ++ ": " ++
            String.intercalate " "
              (times.map fun t => t.trainType ++ t.destination ++ t.minute)))

/-- Destination definition lines of variant K (lines 262-264). -/
def destDefLines_K : List String :=
  (pySorted (fun p q => strLe p.1 q.1) destination_definitions_K).map
    (fun p => p.1 ++ ":" ++ p.2.1 ++ ";" ++ p.2.2)

/-- Train-type definition lines of variant K (lines 267-269). -/
def typeDefLines_K : List String :=
  (pySorted (fun p q => strLe p.1 q.1) train_type_definitions_K).map
    (fun p => p.1 ++ ":" ++ p.2.1 ++ ";" ++ p.2.2.1 ++ ";" ++ p.2.2.2)

/-- The per-document block of output lines of variant K (lines 272-326). -/
def blockLines_K (pd : ParsedTimetable) : List String :=
  "" ::
  (if pd.station.dayType == "weekday" then "[MON][TUE][WED][THU][FRI]"
   else "[SAT][SUN][HOL]") ::
  ("# " ++ pd.station.name ++ "駅 " ++ directionReduce pd.station.direction ++ "(" ++
    (if pd.station.dayType == "weekday" then "平日" else "土休日") ++ ")") ::
  hourLines sortHour_K pd.timetable

/-- Variant K `convert_to_nexttrain` (lines 257-328). -/
def convert_to_nexttrain_K (datas : List ParsedTimetable) : String :=
  String.intercalate "\n" ((destDefLines_K ++ typeDefLines_K) ++ datas.flatMap blockLines_K)

example : directionReduce "押上・京成線・北総線" = "押上方面" := by decide
example : directionReduce "西馬込方面" = "西馬込方面" := by decide
example : sortHour_K "0" = 24 ∧ sortHour_K "1" = 25 ∧ sortHour_K "23" = 23 ∧
    sortHour_K "x" = 0 := by decide

/-! ## Spec-side reference definitions

These follow the wording of the specification (and, for the corrected
claims, its amended wording), to be compared with the definitions
translated from the source. -/

/-- Modelled from the spec: "scan legends in order; … skip [type symbols];
otherwise, if it is a key in the destination map, set the destination to
the mapped code and stop scanning (first destination match wins — later
legend entries are ignored)". -/
def specFirstDest (syms : List String) (dmap : List (String × String)) (dflt : String) :
    List String → String
  | [] => dflt
  | l :: ls =>
    if !syms.contains l && (dmap.lookup l).isSome then (dmap.lookup l).getD dflt
    else specFirstDest syms dmap dflt ls

/-- A variant-N legend glyph that resolves as a destination name: not a
type symbol, not a track glyph, and a key of the destination map. -/
def qualName_N (l : String) : Bool :=
  !typeSyms_N.contains l && l != "①" && l != "②" && (destination_map_N.lookup l).isSome

/-- The destination code of the last name-resolving glyph, if any. -/
def lastNameMatch_N : List String → Option String
  | [] => none
  | l :: ls =>
    match lastNameMatch_N ls with
    | some d => some d
    | none => if qualName_N l then destination_map_N.lookup l else none

/-- A variant-N track glyph occurrence (not shadowed by the type-symbol set). -/
def qualTrack_N (l : String) : Bool :=
  !typeSyms_N.contains l && (l == "①" || l == "②")

/-- The platform code of the last track glyph, if any. -/
def lastTrackMatch_N : List String → Option String
  | [] => none
  | l :: ls =>
    match lastTrackMatch_N ls with
    | some t => some t
    | none => if qualTrack_N l then (if l == "①" then some "f" else some "g") else none

/-- Amended destination rule of variant N: the last destination-name glyph
wins; a track glyph is only a fallback when no name glyph resolves; with
neither, the default code `"f"` (西馬込1番線). -/
def specDest_N (legends : List String) : String :=
  match lastNameMatch_N legends with
  | some d => d
  | none =>
    match lastTrackMatch_N legends with
    | some t => t
    | none => "f"



/-! ## Auxiliary lemmas -/

theorem destScanG_eq_specFirstDest (syms : List String) (dmap : List (String × String))
    (dflt : String) : ∀ legends, destScanG syms dmap dflt legends =
      specFirstDest syms dmap dflt legends := by
  intro legends
  induction legends with
  | nil => rfl
  | cons l ls ih =>
    by_cases hsym : l ∈ syms
    · simp [destScanG, specFirstDest, hsym, ih]
    · cases hl : dmap.lookup l with
      | none => simp [destScanG, specFirstDest, hsym, hl, ih]
      | some d => simp [destScanG, specFirstDest, hsym, hl]

theorem destStep_N_fst (dp : Option String × Option String) (l : String) :
    (destStep_N dp l).1 =
      if qualName_N l then destination_map_N.lookup l else dp.1 := by
  unfold destStep_N qualName_N
  by_cases hsym : l ∈ typeSyms_N
  · simp [hsym]
  · by_cases h1 : l = "①"
    · subst h1; simp [hsym]
    · by_cases h2 : l = "②"
      · subst h2; simp [hsym, h1]
      · cases hl : destination_map_N.lookup l with
        | none => simp [hsym, h1, h2, hl]
        | some d => simp [hsym, h1, h2, hl]

theorem destStep_N_snd (dp : Option String × Option String) (l : String) :
    (destStep_N dp l).2 =
      if qualTrack_N l then (if l == "①" then some "f" else some "g") else dp.2 := by
  unfold destStep_N qualTrack_N
  by_cases hsym : l ∈ typeSyms_N
  · simp [hsym]
  · by_cases h1 : l = "①"
    · subst h1; simp [hsym]
    · by_cases h2 : l = "②"
      · subst h2; simp [hsym, h1]
      · cases hl : destination_map_N.lookup l with
        | none => simp [hsym, h1, h2, hl]
        | some d => simp [hsym, h1, h2, hl]

theorem destStep_N_fold : ∀ (legends : List String) (d p : Option String),
    legends.foldl destStep_N (d, p) =
      ((lastNameMatch_N legends).elim d some, (lastTrackMatch_N legends).elim p some) := by
  intro legends
  induction legends with
  | nil => intro d p; rfl
  | cons l ls ih =>
    intro d p
    rw [List.foldl_cons,
        show destStep_N (d, p) l = ((destStep_N (d, p) l).1, (destStep_N (d, p) l).2) from rfl,
        ih, destStep_N_fst, destStep_N_snd]
    simp only [Prod.mk.injEq]
    constructor
    · cases hn : lastNameMatch_N ls with
      | some x => simp [lastNameMatch_N, hn]
      | none =>
        cases hq : qualName_N l with
        | false => simp [lastNameMatch_N, hn, hq]
        | true =>
          cases hl : destination_map_N.lookup l with
          | none => simp [qualName_N, hl] at hq
          | some y => simp [lastNameMatch_N, hn, hq, hl]
    · cases ht : lastTrackMatch_N ls with
      | some x => simp [lastTrackMatch_N, ht]
      | none =>
        cases hq : qualTrack_N l with
        | false => simp [lastTrackMatch_N, ht, hq]
        | true =>
          by_cases h1 : l = "①"
          · subst h1; simp [lastTrackMatch_N, ht, hq]
          · simp [lastTrackMatch_N, ht, hq, h1]

/-! ## The claims -/

/-- C1: in variant K, a trip block whose legend list contains the
airport-limited-express glyph `エ` gets train type `"m"` (via
成田スカイアクセス線) exactly when `color-orange` is among its class tokens
and the resolved destination is the airport code `"i"`; in every other
case it gets `"l"`, the color-to-type fallback table notwithstanding. -/
theorem keisei_airportGlyph_trainType (wt : WrapTime) (trip : Trip)
    (hE : "エ" ∈ extractLegendTexts wt.legendElem)
    (h : processWrapTime_K wt = some trip) :
    trip.trainType =
      if "color-orange" ∈ wt.classes ∧ destScan_K (extractLegendTexts wt.legendElem) = "i"
      then "m" else "l" := by
  have hcon : (extractLegendTexts wt.legendElem).contains "エ" = true := by simpa using hE
  simp only [processWrapTime_K] at h
  split at h
  · cases h
  · split at h
    · cases h
    · have htrip := (Option.some.inj h).symm
      subst htrip
      show trainType_K wt.classes (extractLegendTexts wt.legendElem)
          (destScan_K (extractLegendTexts wt.legendElem)) = _
      unfold trainType_K
      rw [if_pos (by simpa using hE)]
      by_cases hor : "color-orange" ∈ wt.classes
      · by_cases hdi : destScan_K (extractLegendTexts wt.legendElem) = "i"
        · simp [hor, hdi]
        · simp [hor, hdi]
      · simp [hor]

/-- C1 witness: the spec's example block, legends `["エ","空"]` with
`color-orange`, resolves to destination `"i"` and train type `"m"`. -/
theorem keisei_airportGlyph_trainType_inst :
    ("エ" ∈ extractLegendTexts (some ["エ", "空"])) ∧
    processWrapTime_K ⟨["wrapTime", "color-orange"], some ["エ", "空"], some "10"⟩ =
      some ⟨"10", "m", "i", ["エ", "空"]⟩ ∧
    (⟨"10", "m", "i", ["エ", "空"]⟩ : Trip).trainType =
      if "color-orange" ∈ ["wrapTime", "color-orange"] ∧
          destScan_K (extractLegendTexts (some ["エ", "空"])) = "i" then "m" else "l" :=
  ⟨by decide, by decide,
    keisei_airportGlyph_trainType ⟨["wrapTime", "color-orange"], some ["エ", "空"], some "10"⟩
      ⟨"10", "m", "i", ["エ", "空"]⟩ (by decide) (by decide)⟩

/-- C2 counterexample: in the Nishimagome main-line variant the destination
scan does not stop at the first match.  With legends `["羽","品"]` the first
non-type-symbol key is `"羽"` (code `"a"`), yet the produced trip carries
destination `"j"` (code of the later glyph `"品"`). -/
theorem nishimagome_firstMatch_refuted :
    processBlock_N ⟨"wrapTime", ["羽", "品"], some "10"⟩ =
      some ⟨"10", "o", "j", ["羽", "品"]⟩ ∧
    typeSyms_N.contains "羽" = false ∧
    destination_map_N.lookup "羽" = some "a" ∧
    ("j" : String) ≠ "a" := by decide

/-- C2 (amended): destination resolution is first-match-wins with an early
stop in variants K and S; in variant N the scan continues to the end, so a
destination-name glyph placed last always determines the name destination,
whatever came before it (track glyphs `①`/`②` go to a separate platform
slot). -/
theorem destResolution_perVariant :
    (∀ legends, destScan_K legends =
      specFirstDest typeSyms_K destination_map_K "j" legends) ∧
    (∀ legends, destScan_S legends =
      specFirstDest typeSyms_S destination_map_S "j" legends) ∧
    (∀ (legends : List String) (l d : String), l ∉ typeSyms_N → l ≠ "①" → l ≠ "②" →
      destination_map_N.lookup l = some d →
      (destFold_N (legends ++ [l])).1 = some d) := by
  refine ⟨fun legends => destScanG_eq_specFirstDest _ _ _ legends,
    fun legends => destScanG_eq_specFirstDest _ _ _ legends, ?_⟩
  intro legends l d hsym h1 h2 hl
  unfold destFold_N
  rw [List.foldl_append, List.foldl_cons, List.foldl_nil,
      show legends.foldl destStep_N (none, none) =
        ((legends.foldl destStep_N (none, none)).1,
         (legends.foldl destStep_N (none, none)).2) from rfl,
      destStep_N_fst]
  rw [if_pos (by simp [qualName_N, hsym, h1, h2, hl])]
  exact hl

/-- C2 witness: appending the qualifying glyph `"品"` after `["羽"]` makes
the resolved name destination `"j"`, the code of the last match. -/
theorem destResolution_perVariant_inst :
    ("品" ∉ typeSyms_N) ∧ ("品" : String) ≠ "①" ∧ ("品" : String) ≠ "②" ∧
    destination_map_N.lookup "品" = some "j" ∧
    (destFold_N (["羽"] ++ ["品"])).1 = some "j" :=
  ⟨by decide, by decide, by decide, by decide,
    destResolution_perVariant.2.2 ["羽"] "品" "j" (by decide) (by decide) (by decide)
      (by decide)⟩

/-- C3 counterexample: a track glyph does not take priority over a
destination-name glyph.  With legends `["①","品"]` the track glyph maps to
`"f"`, yet the trip's destination is `"j"`, the name glyph's code. -/
theorem nishimagome_trackGlyph_refuted :
    processBlock_N ⟨"wrapTime", ["①", "品"], some "10"⟩ =
      some ⟨"10", "o", "j", ["①", "品"]⟩ ∧
    destination_map_N.lookup "①" = some "f" ∧
    ("j" : String) ≠ "f" := by decide

/-- C3 (amended): in the Nishimagome main-line variant the circled-digit
track glyphs `①` (code `"f"`) and `②` (code `"g"`) are recorded in a
separate platform slot and used as the destination only when no
destination-name glyph resolves; a name glyph always takes priority, and
with neither the default `"f"` applies (last occurrence wins per slot). -/
theorem nishimagome_trackGlyph_fallback :
    ∀ legends, destOf_N legends = specDest_N legends := by
  intro legends
  unfold destOf_N destFold_N specDest_N
  rw [destStep_N_fold]
  cases hn : lastNameMatch_N legends with
  | some d => simp
  | none =>
    cases ht : lastTrackMatch_N legends with
    | some t => simp
    | none => simp

/-- C4: a trip block whose time text is the placeholder `－` is excluded
from the hour's trip sequence in variants K and N, while variant S keeps it
as a literal trip with minute label `－`. -/
theorem placeholder_filter_perVariant :
    (∀ (pre post : List WrapTime) (cls : List String) (leg : Option (List String)),
      rowTrips_K (pre ++ ⟨cls, leg, some "－"⟩ :: post) = rowTrips_K (pre ++ post)) ∧
    (∀ (pre post : List TrainBlock_N) (ca : String) (lg : List String),
      rowTrips_N (pre ++ ⟨ca, lg, some "－"⟩ :: post) = rowTrips_N (pre ++ post)) ∧
    (∀ (pre post : List WrapTime) (cls : List String) (leg : Option (List String)),
      rowTrips_S (pre ++ ⟨cls, leg, some "－"⟩ :: post) =
        rowTrips_S pre ++
          ⟨"－", trainType_S cls, destScan_S (extractLegendTexts leg),
            extractLegendTexts leg⟩ :: rowTrips_S post) := by
  refine ⟨?_, ?_, ?_⟩ <;> intro pre post a b
  · unfold rowTrips_K
    rw [List.filterMap_append, List.filterMap_append,
      List.filterMap_cons_none (show processWrapTime_K ⟨a, b, some "－"⟩ = none from rfl)]
  · unfold rowTrips_N
    rw [List.filterMap_append, List.filterMap_append,
      List.filterMap_cons_none (show processBlock_N ⟨a, b, some "－"⟩ = none from rfl)]
  · unfold rowTrips_S
    rw [List.filterMap_append,
      List.filterMap_cons_some (show processWrapTime_S ⟨a, b, some "－"⟩ =
        some ⟨"－", trainType_S a, destScan_S (extractLegendTexts b),
          extractLegendTexts b⟩ from rfl)]

/-- C10: a trip block with no time element contributes no trip in any
variant, even when it has legends and color tokens. -/
theorem missingTime_blockDropped :
    (∀ (pre post : List WrapTime) (cls : List String) (leg : Option (List String)),
      rowTrips_K (pre ++ ⟨cls, leg, none⟩ :: post) = rowTrips_K (pre ++ post)) ∧
    (∀ (pre post : List TrainBlock_N) (ca : String) (lg : List String),
      rowTrips_N (pre ++ ⟨ca, lg, none⟩ :: post) = rowTrips_N (pre ++ post)) ∧
    (∀ (pre post : List WrapTime) (cls : List String) (leg : Option (List String)),
      rowTrips_S (pre ++ ⟨cls, leg, none⟩ :: post) = rowTrips_S (pre ++ post)) := by
  refine ⟨?_, ?_, ?_⟩ <;> intro pre post a b
  · unfold rowTrips_K
    rw [List.filterMap_append, List.filterMap_append,
      List.filterMap_cons_none (show processWrapTime_K ⟨a, b, none⟩ = none from rfl)]
  · unfold rowTrips_N
    rw [List.filterMap_append, List.filterMap_append,
      List.filterMap_cons_none (show processBlock_N ⟨a, b, none⟩ = none from rfl)]
  · unfold rowTrips_S
    rw [List.filterMap_append, List.filterMap_append,
      List.filterMap_cons_none (show processWrapTime_S ⟨a, b, none⟩ = none from rfl)]

theorem insertHour_mem {tt : List (String × List Trip)} {h : String} {ts : List Trip}
    {p : String × List Trip} (hp : p ∈ insertHour tt h ts) : p ∈ tt ∨ p = (h, ts) := by
  unfold insertHour at hp
  split at hp
  · rcases List.mem_map.mp hp with ⟨q, hq, hfq⟩
    split at hfq
    · exact Or.inr hfq.symm
    · exact Or.inl (hfq ▸ hq)
  · rcases List.mem_append.mp hp with h1 | h2
    · exact Or.inl h1
    · simp at h2
      exact Or.inr h2

theorem regHour_pres {tt : List (String × List Trip)} {e : Option (String × List Trip)}
    (hI : ∀ p ∈ tt, p.2 ≠ []) : ∀ p ∈ regHour tt e, p.2 ≠ [] := by
  intro p hp
  unfold regHour at hp
  split at hp
  · exact hI p hp
  · rename_i hr ts
    split at hp
    · exact hI p hp
    · rename_i hne
      rcases insertHour_mem hp with hmem | hpair
      · exact hI p hmem
      · rw [hpair]
        intro hnil
        exact hne (by simp [show ts = [] from hnil])

theorem foldl_regHour_pres : ∀ (entries : List (Option (String × List Trip)))
    (tt : List (String × List Trip)), (∀ p ∈ tt, p.2 ≠ []) →
    ∀ p ∈ entries.foldl regHour tt, p.2 ≠ [] := by
  intro entries
  induction entries with
  | nil => intro tt hI; simpa using hI
  | cons e es ih =>
    intro tt hI
    rw [List.foldl_cons]
    exact ih _ (fun p hp => regHour_pres hI p hp)

/-- C5: the midnight-remapping sort key (variants K and N) maps non-numeric
labels to 0, numeric labels to their value except hours 0 and 1 which
become 24 and 25, so hours run 2,…,23,0,1 and the registered hours
3,23,0,1 are emitted in exactly that order; the 西馬込支線押上方面 variant
sorts purely numerically, leaving hours 0 and 1 first. -/
theorem hourSort_midnightRemap :
    (∀ h, isdigitPy h = true → 2 ≤ toNatPy h → sortHour_K h = toNatPy h) ∧
    (∀ h, isdigitPy h = true → toNatPy h ≤ 1 → sortHour_K h = toNatPy h + 24) ∧
    (∀ h, isdigitPy h = false → sortHour_K h = 0) ∧
    hourLines sortHour_K
        [("3", [⟨"10", "o", "j", []⟩]), ("23", [⟨"10", "o", "j", []⟩]),
         ("0", [⟨"10", "o", "j", []⟩]), ("1", [⟨"10", "o", "j", []⟩])] =
      ["3: oj10", "23: oj10", "0: oj10", "1: oj10"] ∧
    (∀ h, isdigitPy h = true → sortHour_S h = toNatPy h) ∧
    sortHour_S "0" = 0 ∧ sortHour_S "1" = 1 ∧
    hourLines sortHour_S
        [("3", [⟨"10", "o", "j", []⟩]), ("23", [⟨"10", "o", "j", []⟩]),
         ("0", [⟨"10", "o", "j", []⟩]), ("1", [⟨"10", "o", "j", []⟩])] =
      ["0: oj10", "1: oj10", "3: oj10", "23: oj10"] := by
  refine ⟨?_, ?_, ?_, by decide, ?_, by decide, by decide, by decide⟩
  · intro h hd h2
    unfold sortHour_K
    rw [if_pos hd, if_neg (by omega)]
  · intro h hd h1
    unfold sortHour_K
    rw [if_pos hd, if_pos h1]
  · intro h hd
    unfold sortHour_K
    rw [if_neg (by simp [hd])]
  · intro h hd
    unfold sortHour_S
    rw [if_pos hd]

/-- C5 witness: the general clauses at concrete hours "5" and "0". -/
theorem hourSort_midnightRemap_inst :
    isdigitPy "5" = true ∧ 2 ≤ toNatPy "5" ∧ sortHour_K "5" = toNatPy "5" ∧
    isdigitPy "0" = true ∧ toNatPy "0" ≤ 1 ∧ sortHour_K "0" = toNatPy "0" + 24 :=
  ⟨by decide, by decide, hourSort_midnightRemap.1 "5" (by decide) (by decide),
   by decide, by decide, hourSort_midnightRemap.2.1 "0" (by decide) (by decide)⟩

/-- C6 exhibit: an active direction tab whose list item has no anchor makes
`extract_station_info` raise `AttributeError` (the unguarded
`direction_elem.find('a').text` chain), instead of degrading to an empty
direction as the robustness contract demands. -/
theorem stationInfo_missingAnchor_raises :
    extract_station_info_K ⟨none, some none, none⟩ = Except.error attrErr := rfl

/-- C7: in every variant an hour key is registered only with a non-empty
trip sequence. -/
theorem timetable_hours_nonempty :
    (∀ (rows : List Row) (p : String × List Trip),
      p ∈ extract_timetable_K rows → p.2 ≠ []) ∧
    (∀ (rows : List (String × List TrainBlock_N)) (p : String × List Trip),
      p ∈ extract_timetable_N rows → p.2 ≠ []) ∧
    (∀ (rows : List Row) (p : String × List Trip),
      p ∈ extract_timetable_S rows → p.2 ≠ []) := by
  refine ⟨?_, ?_, ?_⟩ <;>
    exact fun rows p hp => foldl_regHour_pres _ [] (by simp) p hp

/-- C7 witness: a concrete registered hour with its non-empty trip list. -/
theorem timetable_hours_nonempty_inst :
    ("5", [(⟨"10", "o", "j", []⟩ : Trip)]) ∈
      extract_timetable_K [⟨some "5", some [⟨[], none, some "10"⟩]⟩] ∧
    ([(⟨"10", "o", "j", []⟩ : Trip)] : List Trip) ≠ [] :=
  ⟨by decide,
    timetable_hours_nonempty.1 [⟨some "5", some [⟨[], none, some "10"⟩]⟩]
      ("5", [(⟨"10", "o", "j", []⟩ : Trip)]) (by decide)⟩

/-- C8: in each variant, every value of the destination map, the
platform-override codes (`"f"`/`"g"` in variant N), and the default
destination code are keys of the destination definitions. -/
theorem destinationCodes_defined :
    (destination_map_K.all
        (fun p => (destination_definitions_K.map Prod.fst).contains p.2) = true ∧
      (destination_definitions_K.map Prod.fst).contains "j" = true) ∧
    (destination_map_N.all
        (fun p => (destination_definitions_N.map Prod.fst).contains p.2) = true ∧
      (destination_definitions_N.map Prod.fst).contains "f" = true ∧
      (destination_definitions_N.map Prod.fst).contains "g" = true) ∧
    (destination_map_S.all
        (fun p => (destination_definitions_S.map Prod.fst).contains p.2) = true ∧
      (destination_definitions_S.map Prod.fst).contains "j" = true) := by decide

/-- C9: variant K's serializer emits the destination definition lines in
ascending code order as `code:fullName;abbreviation`, then the train-type
definition lines as `code:fullName;abbreviation;colorHex`, then per parsed
timetable (in input order) a blank line, the day-type header, a title line
whose direction keeps only the first `・`-segment plus `方面`, and per-hour
lines `hour: ` with entries `trainTypeCode ++ destinationCode ++ minute`
space-separated in insertion order, hours sorted by the midnight-remapping
key. -/
theorem serialize_format_K (datas : List ParsedTimetable) :
    convert_to_nexttrain_K datas =
      String.intercalate "\n"
        ((["a:印旛日本医大;印", "b:芝山千代田;芝", "c:印西牧の原;牧", "d:押上;押",
           "e:京成高砂;高", "f:京成佐倉;佐", "g:京成成田;成", "h:宗吾参道;宗",
           "i:成田空港;空", "j:青砥;青"] ++
          ["k:アクセス特急;ア;#EE7A00", "l:エアポート快特;エ;#EE7A00",
           "m:エアポート快特−成田スカイアクセス線経由;快;#EE7A00",
           "n:通勤特急;通;#0033FF", "o:普通;普;#000000", "p:快速;快;#FC82FC",
           "q:特急;特;#FF0033", "r:快特;快;#009966"]) ++
         datas.flatMap (fun pd =>
           "" ::
           (if pd.station.dayType == "weekday" then "[MON][TUE][WED][THU][FRI]"
            else "[SAT][SUN][HOL]") ::
           ("# " ++ pd.station.name ++ "駅 " ++
             (if containsStr pd.station.direction "・" then
               (⟨splitFirst ['・'] pd.station.direction.data⟩ : String) ++ "方面"
              else pd.station.direction) ++ "(" ++
             (if pd.station.dayType == "weekday" then "平日" else "土休日") ++ ")") ::
           (pySorted (fun a b => Nat.ble (sortHour_K a) (sortHour_K b))
               (pd.timetable.map Prod.fst)).filterMap
             (fun h => (pd.timetable.lookup h).bind fun times =>
               if times.isEmpty then none
               else
                 some (h ++ ": " ++ String.intercalate " "
                   (times.map fun t => t.trainType ++ t.destination ++ t.minute))))) := by
  have hdest : destDefLines_K =
      ["a:印旛日本医大;印", "b:芝山千代田;芝", "c:印西牧の原;牧", "d:押上;押",
       "e:京成高砂;高", "f:京成佐倉;佐", "g:京成成田;成", "h:宗吾参道;宗",
       "i:成田空港;空", "j:青砥;青"] := by decide
  have htype : typeDefLines_K =
      ["k:アクセス特急;ア;#EE7A00", "l:エアポート快特;エ;#EE7A00",
       "m:エアポート快特−成田スカイアクセス線経由;快;#EE7A00",
       "n:通勤特急;通;#0033FF", "o:普通;普;#000000", "p:快速;快;#FC82FC",
       "q:特急;特;#FF0033", "r:快特;快;#009966"] := by decide
  unfold convert_to_nexttrain_K
  rw [hdest, htype]
  rfl
